import Mathlib

set_option maxHeartbeats 1000000

/-!
Shallow embedding of the Janus gateway recorder (`src/record.c`).

The recorder is modelled as a pure state machine: the `janus_recorder`
structure holds the fields of the C struct that the operations read or
write, plus the byte stream appended to the recording file (`fileBytes`).
Clock readings, the success of the external JSON serializer, and the
progress made by each `fwrite` call of the payload loop are passed in
explicitly through a `SaveEnv` environment, so every operation is a
total, executable function.
-/

/-- The three media kinds derived from a codec name (`janus_recorder_medium`). -/
inductive janus_recorder_medium where
  | audio
  | video
  | data
deriving DecidableEq, Repr

/-- The slice of `janus_rtp_switching_context` (rtp.h) that `record.c`
touches: the two re-synchronization marks and the monotonic reference
instant that `janus_recorder_resume` stamps. -/
structure janus_rtp_switching_context where
  ts_reset : Bool
  seq_reset : Bool
  last_time : Int
deriving DecidableEq, Repr

/-- State of one recorder: the fields of the C `janus_recorder` struct
(atomic flags are plain `Bool`s because every theorem is about the
serialized behaviour behind the recorder's mutex), plus `fileBytes`,
the bytes appended to the recording file so far, and `file`, whether the
file handle is present. -/
structure janus_recorder where
  dir : Option (List Char)
  filename : List Char
  file : Bool
  codec : String
  fmtp : Option String
  description : Option String
  created : Int
  started : Int
  type : janus_recorder_medium
  writable : Bool
  header : Bool
  paused : Bool
  destroyed : Bool
  opusred_pt : Int
  encrypted : Bool
  extensions : List (Int × String)
  context : janus_rtp_switching_context
  fileBytes : List Nat
  refcount : Nat
deriving DecidableEq, Repr

/-- Big-endian 16-bit encoding (what `htons` followed by `fwrite` of a
`uint16_t` emits); the value is implicitly truncated modulo 2^16 by the
digit extraction, exactly like the C cast to `uint16_t`. -/
def be16 (v : Nat) : List Nat := [v / 256 % 256, v % 256]

/-- Big-endian 32-bit encoding (`htonl` + `fwrite` of a `uint32_t`). -/
def be32 (v : Nat) : List Nat :=
  [v / 16777216 % 256, v / 65536 % 256, v / 256 % 256, v % 256]

/-- Big-endian 64-bit encoding (`htonll` + `fwrite` of a `gint64`). -/
def be64 (v : Nat) : List Nat :=
  [v / 72057594037927936 % 256, v / 281474976710656 % 256, v / 1099511627776 % 256,
   v / 4294967296 % 256, v / 16777216 % 256, v / 65536 % 256, v / 256 % 256, v % 256]

/-- The `(uint64_t)` cast applied to the `gint64` wall-clock reading
before `htonll` in the data-frame path. -/
def be64_of_int (t : Int) : List Nat := be64 (t.emod 18446744073709551616).toNat

/-- ASCII bytes of a string constant (e.g. the magic `"MJR00002"` and the
frame marker `"MEET"`). -/
def str_bytes (s : String) : List Nat := s.data.map Char.toNat

/-- Reading `ntohs(header->seq_number)`: the RTP sequence number lives in bytes 2-3
of the packet, big-endian. -/
def rtp_get_seq : List Nat → Nat
  | _ :: _ :: b2 :: b3 :: _ => 256 * b2 + b3
  | _ => 0

/-- Store a sequence number into bytes 2-3 of the packet (`htons`). -/
def rtp_set_seq : List Nat → Nat → List Nat
  | b0 :: b1 :: _ :: _ :: rest, v =>
      b0 :: b1 :: (v / 256 % 256) :: (v % 256) :: rest
  | l, _ => l

/-- Reading `ntohl(header->timestamp)`: the RTP timestamp lives in bytes 4-7. -/
def rtp_get_ts : List Nat → Nat
  | _ :: _ :: _ :: _ :: b4 :: b5 :: b6 :: b7 :: _ =>
      16777216 * b4 + 65536 * b5 + 256 * b6 + b7
  | _ => 0

/-- Store a timestamp into bytes 4-7 of the packet (`htonl`). -/
def rtp_set_ts : List Nat → Nat → List Nat
  | b0 :: b1 :: b2 :: b3 :: _ :: _ :: _ :: _ :: rest, v =>
      b0 :: b1 :: b2 :: b3 :: (v / 16777216 % 256) :: (v / 65536 % 256) ::
        (v / 256 % 256) :: (v % 256) :: rest
  | l, _ => l

/-- Reading `ntohl(header->ssrc)`: the RTP SSRC lives in bytes 8-11. -/
def rtp_get_ssrc : List Nat → Nat
  | _ :: _ :: _ :: _ :: _ :: _ :: _ :: _ :: b8 :: b9 :: b10 :: b11 :: _ =>
      16777216 * b8 + 65536 * b9 + 256 * b10 + b11
  | _ => 0

/-- Store an SSRC into bytes 8-11 of the packet (`htonl`). -/
def rtp_set_ssrc : List Nat → Nat → List Nat
  | b0 :: b1 :: b2 :: b3 :: b4 :: b5 :: b6 :: b7 :: _ :: _ :: _ :: _ :: rest, v =>
      b0 :: b1 :: b2 :: b3 :: b4 :: b5 :: b6 :: b7 :: (v / 16777216 % 256) ::
        (v / 65536 % 256) :: (v / 256 % 256) :: (v % 256) :: rest
  | l, _ => l

/-- Interface of the external normalization update
(`janus_rtp_header_update`, defined in rtp.c): given the (seq, ts, ssrc)
triple read from the packet, the context, the video flag and a monotonic
clock reading, it produces the rewritten triple and the updated context. -/
def UpdFn : Type :=
  Nat × Nat × Nat → janus_rtp_switching_context → Bool → Int →
    (Nat × Nat × Nat) × janus_rtp_switching_context

/-- The `fwrite` retry loop of `janus_recorder_save_frame` (lines 459-474):
each oracle entry is the byte count one `fwrite` call reports; the loop
resumes from the point of any partial write and fails only when a call
makes no progress (an exhausted oracle also means no progress).
Returns the bytes that reached the file and whether the loop completed. -/
def payload_loop : List Nat → List Nat → List Nat × Bool
  | buf, [] => ([], buf.isEmpty)
  | buf, temp :: rest =>
    if buf.isEmpty then ([], true)
    else if temp = 0 then ([], false)
    else
      let w := min temp buf.length
      let s := payload_loop (buf.drop w) rest
      (buf.take w ++ s.1, s.2)

/-- The media-kind tag stored in the info block (`"a"`/`"v"`/`"d"`). -/
def medium_tag : janus_recorder_medium → String
  | janus_recorder_medium.audio => "a"
  | janus_recorder_medium.video => "v"
  | janus_recorder_medium.data => "d"

/-- Rendering of the extmap table into the info block, keeping the
source's filter: only ids strictly between 0 and 16 with a present name
are emitted (lines 369-388). -/
def render_extmaps (l : List (Int × String)) : String :=
  match l.filter (fun p => decide (0 < p.1) && decide (p.1 < 16)) with
  | [] => ""
  | es => ";x=" ++ String.intercalate "," (es.map (fun p => toString p.1 ++ ":" ++ p.2))

/-- Modelled from the spec: the info block is serialized by an external
structured-text encoder (jansson's `json_dumps`, not part of this source);
we model it as a deterministic rendering of exactly the fields the source
puts into the object, in the source's order (lines 354-397): media-kind
tag, codec, optional fmtp, optional description, optional extmap table,
creation instant, first-frame wall-clock instant, the RED payload type
when the kind is audio and the value is positive, and the encrypted flag
when set. -/
def janus_recorder_info_text (r : janus_recorder) (u : Int) : List Nat :=
  str_bytes ("t=" ++ medium_tag r.type ++ ";c=" ++ r.codec ++
    (match r.fmtp with | none => "" | some f => ";f=" ++ f) ++
    (match r.description with | none => "" | some d => ";d=" ++ d) ++
    render_extmaps r.extensions ++
    ";s=" ++ toString r.created ++ ";u=" ++ toString u ++
    (if r.type = janus_recorder_medium.audio ∧ 0 < r.opusred_pt then
      ";or=" ++ toString r.opusred_pt else "") ++
    (if r.encrypted then ";e=true" else ""))

/-- The info header block as it reaches the file: a 2-byte big-endian
length prefix (`htons(strlen(info_text))`) followed by the serialized
text (lines 404-414). -/
def mjr_info_chunk (r : janus_recorder) (u : Int) : List Nat :=
  be16 (janus_recorder_info_text r u).length ++ janus_recorder_info_text r u

/-- The relative frame timestamp (line 426): elapsed microseconds divided
by 1000 when `now > started`, else zero, then cast to `uint32_t`. -/
def janus_frame_rel_ts (now started : Int) : Nat :=
  (if started < now then ((now - started) / 1000).toNat else 0) % 4294967296

/-- The declared length field of a frame (line 433): the buffer length,
plus 8 for data frames, cast to `uint16_t`. -/
def frame_declared_length (ty : janus_recorder_medium) (length : Nat) : Nat :=
  (if ty = janus_recorder_medium.data then length + 8 else length) % 65536

/-- One frame record as emitted by `janus_recorder_save_frame` after the
info-header handling: the 4-byte `"MEET"` marker, the 4-byte big-endian
relative timestamp, the 2-byte big-endian declared length, for data
frames an 8-byte big-endian wall-clock instant, then the payload bytes
that the retry loop managed to write. -/
def mjr_frame_record (ty : janus_recorder_medium) (rel declared : Nat) (dts : Int)
    (written : List Nat) : List Nat :=
  str_bytes "MEET" ++ be32 rel ++ be16 declared ++
    (if ty = janus_recorder_medium.data then be64_of_int dts else []) ++ written

/-- The external readings one call to `janus_recorder_save_frame` consumes:
the monotonic clock at entry (line 351), the wall clock used for the info
block's `u` field (line 390), the wall clock used for a data frame's
embedded instant (line 441), whether `json_dumps` succeeds (line 399), and
the per-call progress oracle of the payload `fwrite` loop. -/
structure SaveEnv where
  now_monotonic : Int
  now_real_header : Int
  now_real_data : Int
  dumps_ok : Bool
  payload_oracle : List Nat
deriving DecidableEq, Repr

/-- Embedding of `janus_recorder_save_frame` (lines 331-484). Returns the result code,
the updated recorder, and the caller's buffer as it is left when the call
returns (the a/v path rewrites the packet header in place and restores it
on every exit path). A `none` buffer models a NULL pointer. -/
def janus_recorder_save_frame (upd : UpdFn) (recorder : janus_recorder)
    (buffer : Option (List Nat)) (env : SaveEnv) :
    Int × janus_recorder × Option (List Nat) :=
  if buffer = none ∨ (buffer.getD []).length < 1 then
    (-2, recorder, buffer)
  else if recorder.file = false then
    (-3, recorder, buffer)
  else if recorder.writable = false then
    (-4, recorder, buffer)
  else if recorder.paused = true then
    (-5, recorder, buffer)
  else if recorder.header = false ∧ env.dumps_ok = false then
    (-5, recorder, buffer)
  else
    let buf := buffer.getD []
    let now := env.now_monotonic
    let r1 :=
      if recorder.header = false then
        { recorder with
          fileBytes := recorder.fileBytes ++ mjr_info_chunk recorder env.now_real_header,
          started := now,
          header := true }
      else recorder
    let rel := janus_frame_rel_ts now r1.started
    let declared := frame_declared_length r1.type buf.length
    if r1.type = janus_recorder_medium.data then
      let pl := payload_loop buf env.payload_oracle
      ((if pl.2 then 0 else -6),
       { r1 with fileBytes := r1.fileBytes ++
           mjr_frame_record r1.type rel declared env.now_real_data pl.1 },
       some buf)
    else
      let u := upd (rtp_get_seq buf, rtp_get_ts buf, rtp_get_ssrc buf)
                 r1.context (r1.type = janus_recorder_medium.video) now
      let wbuf := rtp_set_seq (rtp_set_ssrc (rtp_set_ts buf u.1.2.1) u.1.2.2) u.1.1
      let pl := payload_loop wbuf env.payload_oracle
      let restored := rtp_set_ts (rtp_set_seq (rtp_set_ssrc wbuf (rtp_get_ssrc buf))
                        (rtp_get_seq buf)) (rtp_get_ts buf)
      ((if pl.2 then 0 else -6),
       { r1 with
         context := u.2,
         fileBytes := r1.fileBytes ++
           mjr_frame_record r1.type rel declared env.now_real_data pl.1 },
       some restored)

/-- Embedding of `janus_recorder_pause` (lines 260-266): compare-and-set of the paused
flag from false to true. -/
def janus_recorder_pause (recorder : janus_recorder) : Int × janus_recorder :=
  if recorder.paused = false then (0, { recorder with paused := true })
  else (-2, recorder)

/-- Embedding of `janus_recorder_resume` (lines 268-283): compare-and-set of the paused
flag from true to false; on success, for audio and video kinds only, the
normalization context is reset and re-stamped with the monotonic clock. -/
def janus_recorder_resume (now : Int) (recorder : janus_recorder) :
    Int × janus_recorder :=
  if recorder.paused = true then
    if recorder.type = janus_recorder_medium.audio ∨
        recorder.type = janus_recorder_medium.video then
      (0, { recorder with
            paused := false,
            context := { ts_reset := true, seq_reset := true, last_time := now } })
    else
      (0, { recorder with paused := false })
  else (-2, recorder)

/-- Embedding of `janus_recorder_add_extmap` (lines 285-294): fails without mutation if
the header is already written, the id is outside [1,15], or the name is
absent; otherwise inserts/overwrites the id's entry. -/
def janus_recorder_add_extmap (recorder : janus_recorder) (id : Int)
    (extmap : Option String) : Int × janus_recorder :=
  if recorder.header = true ∨ id < 1 ∨ 15 < id ∨ extmap = none then
    (-1, recorder)
  else
    (0, { recorder with
          extensions := (id, extmap.getD "") ::
            recorder.extensions.filter (fun p => decide (p.1 ≠ id)) })

/-- Embedding of `janus_recorder_description` (lines 296-309): fails only on an absent
recorder or text; once the header is written it reports success but
silently keeps the stored description. -/
def janus_recorder_description (recorder : janus_recorder)
    (description : Option String) : Int × janus_recorder :=
  match description with
  | none => (-1, recorder)
  | some d =>
    if recorder.header = true then (0, recorder)
    else (0, { recorder with description := some d })

/-- Embedding of `janus_recorder_opusred` (lines 311-319): stores the RED payload type
only while the header is unwritten. -/
def janus_recorder_opusred (recorder : janus_recorder) (red_pt : Int) :
    Int × janus_recorder :=
  if recorder.header = false then (0, { recorder with opusred_pt := red_pt })
  else (-1, recorder)

/-- Embedding of `janus_recorder_encrypted` (lines 321-329): sets the encrypted flag
only while the header is unwritten. -/
def janus_recorder_encrypted (recorder : janus_recorder) : Int × janus_recorder :=
  if recorder.header = false then (0, { recorder with encrypted := true })
  else (-1, recorder)

/-- Embedding of `janus_recorder_close` (lines 486-522). The first caller that flips
`writable` performs the close logic; with temporary names configured the
file is renamed by truncating the name with
`g_snprintf(newname, strlen(filename)-strlen(rec_tempext), "%s", filename)`,
which keeps `strlen(filename) - strlen(tempext) - 1` characters. The third
component reports whether a rename was performed. -/
def janus_recorder_close (tempname : Bool) (tempext : String)
    (recorder : janus_recorder) : Int × janus_recorder × Bool :=
  if recorder.writable = false then (-1, recorder, false)
  else
    let r1 := { recorder with writable := false }
    if tempname then
      let newname := r1.filename.take (r1.filename.length - tempext.length - 1)
      (0, { r1 with filename := newname }, true)
    else
      (0, r1, false)

/-- Embedding of `janus_recorder_destroy` (lines 524-528): only the first call flips the
destroyed flag and decrements the reference count. -/
def janus_recorder_destroy (recorder : janus_recorder) : janus_recorder :=
  if recorder.destroyed = false then
    { recorder with destroyed := true, refcount := recorder.refcount - 1 }
  else recorder

/-- ASCII lowercase of one character, as C's `tolower` does on ASCII. -/
def ascii_lower (c : Char) : Char :=
  if 'A' ≤ c ∧ c ≤ 'Z' then Char.ofNat (c.toNat + 32) else c

/-- Test `strcasecmp(a, b) == 0`: ASCII case-insensitive string equality. -/
def strcaseeq (a b : String) : Prop :=
  a.data.map ascii_lower = b.data.map ascii_lower

instance (a b : String) : Decidable (strcaseeq a b) := by
  unfold strcaseeq; infer_instance

/-- The codec-name dispatch of `janus_recorder_create_full`
(lines 95-109): three closed, case-insensitive codec sets determine the
media kind; anything else is rejected. -/
def janus_recorder_codec_type (codec : String) : Option janus_recorder_medium :=
  if strcaseeq codec "vp8" ∨ strcaseeq codec "vp9" ∨ strcaseeq codec "h264" ∨
      strcaseeq codec "av1" ∨ strcaseeq codec "h265" then
    some janus_recorder_medium.video
  else if strcaseeq codec "opus" ∨ strcaseeq codec "multiopus" ∨
      strcaseeq codec "g711" ∨ strcaseeq codec "pcmu" ∨ strcaseeq codec "pcma" ∨
      strcaseeq codec "g722" ∨ strcaseeq codec "l16-48" ∨ strcaseeq codec "l16" then
    some janus_recorder_medium.audio
  else if strcaseeq codec "text" ∨ strcaseeq codec "binary" then
    some janus_recorder_medium.data
  else none

/-- Modelled from the spec: POSIX `basename(3)` (libgen.h, external to this
source) — the path component after the last slash. -/
def posix_basename (p : List Char) : List Char :=
  (p.reverse.takeWhile (fun c => c ≠ '/')).reverse

/-- Modelled from the spec: POSIX `dirname(3)` (libgen.h, external to this
source) — the path up to the last slash, or `"."` when there is none. -/
def posix_dirname (p : List Char) : List Char :=
  let d := ((p.reverse.dropWhile (fun c => c ≠ '/')).reverse).dropLast
  if d = [] then ['.'] else d

/-- Outcomes of the external calls `janus_recorder_create_full` makes:
the `stat`/`janus_mkdir` results for the target directory, the protected
folder policy, `fopen`, the success of the 8-byte magic write, the random
identifier, and the wall-clock creation instant. -/
structure CreateEnv where
  dir_missing : Bool
  stat_error : Bool
  mkdir_ok : Bool
  is_dir : Bool
  protected_path : Bool
  fopen_ok : Bool
  magic_write_ok : Bool
  random32 : Nat
  created_time : Int
deriving DecidableEq, Repr

/-- Embedding of `janus_recorder_create_full` (lines 89-258), with the process-wide
temporary-name configuration passed explicitly. Returns the recorder (or
`none` on any failure) together with a flag telling whether `fopen`
created a file on disk before the failure. The codec dispatch happens
before any filesystem effect, exactly as in the source. -/
def janus_recorder_create_full (tempname : Bool) (tempext : String)
    (dir : Option (List Char)) (codec : Option String) (fmtp : Option String)
    (filename : Option (List Char)) (env : CreateEnv) :
    Option janus_recorder × Bool :=
  match codec with
  | none => (none, false)
  | some c =>
    match janus_recorder_codec_type c with
    | none => (none, false)
    | some ty =>
      let rd_rf : Option (List Char) × Option (List Char) :=
        match filename, dir with
        | none, d => (d, none)
        | some f, none => (some (posix_dirname f), some (posix_basename f))
        | some f, some d => (some d, some f)
      let rec_dir := rd_rf.1
      let rec_file := rd_rf.2
      if rec_dir.isSome ∧ env.dir_missing = true ∧ env.mkdir_ok = false then
        (none, false)
      else if rec_dir.isSome ∧ env.dir_missing = false ∧ env.stat_error = true then
        (none, false)
      else if rec_dir.isSome ∧ env.dir_missing = false ∧ env.stat_error = false ∧
          env.is_dir = false then
        (none, false)
      else
        let stem :=
          match rec_file with
          | none => ("janus-recording-" ++ toString env.random32).data
          | some f => f
        let newname :=
          if tempname then stem ++ (".mjr." ++ tempext).data
          else stem ++ ".mjr".data
        if env.protected_path then (none, false)
        else if env.fopen_ok = false then (none, false)
        else if env.magic_write_ok = false then (none, true)
        else
          (some {
            dir := rec_dir,
            filename := newname,
            file := true,
            codec := c,
            fmtp := fmtp,
            description := none,
            created := env.created_time,
            started := 0,
            type := ty,
            writable := true,
            header := false,
            paused := false,
            destroyed := false,
            opusred_pt := 0,
            encrypted := false,
            extensions := [],
            context := { ts_reset := false, seq_reset := false, last_time := 0 },
            fileBytes := str_bytes "MJR00002",
            refcount := 1 }, true)

/-- One frame-write call of a trace: the buffer argument and the external
readings the call consumes. -/
structure SaveInput where
  buffer : Option (List Nat)
  env : SaveEnv
deriving Repr

/-- Run a list of frame-write calls in order. -/
def save_run (upd : UpdFn) (r : janus_recorder) : List SaveInput → janus_recorder
  | [] => r
  | i :: is => save_run upd (janus_recorder_save_frame upd r i.buffer i.env).2.1 is

/-- Number of calls in a trace whose frame write flips the header flag
from unwritten to written; such a flip is exactly an emission of the info
header block. -/
def header_transitions (upd : UpdFn) (r : janus_recorder) : List SaveInput → Nat
  | [] => 0
  | i :: is =>
    let r2 := (janus_recorder_save_frame upd r i.buffer i.env).2.1
    (if r.header = false ∧ r2.header = true then 1 else 0) + header_transitions upd r2 is

/-- Iterate `janus_recorder_close` and count how many of the calls
performed a rename. -/
def close_loop (tempname : Bool) (tempext : String) (recorder : janus_recorder) :
    Nat → janus_recorder × Nat
  | 0 => (recorder, 0)
  | n + 1 =>
    let s := janus_recorder_close tempname tempext recorder
    let rest := close_loop tempname tempext s.2.1 n
    (rest.1, (if s.2.2 then 1 else 0) + rest.2)

/-- A trivial normalization update, used to instantiate theorems at
concrete inputs: it keeps the packet fields and the context unchanged. -/
def upd0 : UpdFn := fun f ctx _ _ => (f, ctx)

/-- Sample context for concrete instantiations. -/
def ctx0 : janus_rtp_switching_context :=
  { ts_reset := false, seq_reset := false, last_time := 0 }

/-- Sample freshly created data-kind recorder. -/
def recD : janus_recorder :=
  { dir := none, filename := ("rec.mjr").data, file := true, codec := "text",
    fmtp := none, description := none, created := 7, started := 0,
    type := janus_recorder_medium.data, writable := true, header := false,
    paused := false, destroyed := false, opusred_pt := 0, encrypted := false,
    extensions := [], context := ctx0, fileBytes := str_bytes "MJR00002",
    refcount := 1 }

/-- Sample audio-kind recorder whose info header is already written. -/
def recA : janus_recorder :=
  { dir := none, filename := ("a.mjr").data, file := true, codec := "opus",
    fmtp := none, description := none, created := 7, started := 1000000,
    type := janus_recorder_medium.audio, writable := true, header := true,
    paused := false, destroyed := false, opusred_pt := 0, encrypted := false,
    extensions := [], context := ctx0, fileBytes := str_bytes "MJR00002",
    refcount := 1 }

/-- Sample data-kind recorder whose info header is already written. -/
def recD2 : janus_recorder :=
  { recD with header := true, started := 0 }

/-- Environment for a first write whose payload `fwrite` makes no
progress (empty oracle). -/
def envA : SaveEnv :=
  { now_monotonic := 1000000, now_real_header := 11, now_real_data := 12,
    dumps_ok := true, payload_oracle := [] }

/-- Environment for a later, fully successful write. -/
def envB : SaveEnv :=
  { now_monotonic := 6000000, now_real_header := 13, now_real_data := 14,
    dumps_ok := true, payload_oracle := [4096] }

/-- Environment exercising the two truncating casts of the frame header:
an elapsed time of 2^32 milliseconds and a single full payload write of
65528 bytes. -/
def envC : SaveEnv :=
  { now_monotonic := 4294967296000, now_real_header := 55, now_real_data := 56,
    dumps_ok := true, payload_oracle := [65528] }

/-- A 12-byte RTP packet for concrete instantiations. -/
def rtpBuf0 : List Nat := [128, 96, 0, 5, 0, 0, 0, 9, 0, 0, 0, 3]

/-! ## General lemmas about the embedded operations -/

/-- If the payload retry loop reports success, every byte of the buffer
reached the file. -/
theorem payload_loop_ok : ∀ (oracle buf : List Nat),
    (payload_loop buf oracle).2 = true → (payload_loop buf oracle).1 = buf := by
  intro oracle
  induction oracle with
  | nil =>
    intro buf h
    simp only [payload_loop, List.isEmpty_iff] at h
    simp [payload_loop, h]
  | cons temp rest ih =>
    intro buf h
    simp only [payload_loop] at h ⊢
    by_cases hb : buf.isEmpty
    · rw [List.isEmpty_iff] at hb
      simp [hb]
    · simp only [hb, if_false, Bool.false_eq_true] at h ⊢
      by_cases ht : temp = 0
      · simp [ht] at h
      · simp only [ht, if_false] at h ⊢
        rw [ih _ h]
        exact List.take_append_drop _ _

/-- A single `fwrite` call that accepts the whole buffer completes the
retry loop in one round. -/
theorem payload_loop_exact (buf : List Nat) (hb : buf ≠ []) :
    payload_loop buf [buf.length] = (buf, true) := by
  have hne : ¬buf.isEmpty := by simp [List.isEmpty_iff, hb]
  have hlen : buf.length ≠ 0 := by simp [hb]
  simp [payload_loop, hne, hlen, List.drop_length, List.take_length]

/-- Every frame-write call either leaves the recorder untouched (one of
the reject paths) or comes out of the main path with the header flag set
and the start timestamp anchored at this call's monotonic reading exactly
when this call emitted the header. -/
theorem save_frame_cases (upd : UpdFn) (r : janus_recorder)
    (b : Option (List Nat)) (env : SaveEnv) :
    (janus_recorder_save_frame upd r b env).2.1 = r ∨
    ((janus_recorder_save_frame upd r b env).2.1.header = true ∧
     (janus_recorder_save_frame upd r b env).2.1.started =
       (if r.header = true then r.started else env.now_monotonic)) := by
  unfold janus_recorder_save_frame
  by_cases h1 : b = none ∨ (b.getD []).length < 1
  · rw [if_pos h1]; left; rfl
  rw [if_neg h1]
  by_cases h2 : r.file = false
  · rw [if_pos h2]; left; rfl
  rw [if_neg h2]
  by_cases h3 : r.writable = false
  · rw [if_pos h3]; left; rfl
  rw [if_neg h3]
  by_cases h4 : r.paused = true
  · rw [if_pos h4]; left; rfl
  rw [if_neg h4]
  by_cases h5 : r.header = false ∧ env.dumps_ok = false
  · rw [if_pos h5]; left; rfl
  rw [if_neg h5]
  right
  by_cases hh : r.header = true <;>
    by_cases hty : r.type = janus_recorder_medium.data <;>
      simp [hh, hty]

/-- Exact behaviour of a frame-write call that passes all precondition
checks (and whose info serialization succeeds when the header is still
unwritten): the bytes appended are the info chunk — present exactly when
this call emits the header — followed by one frame record whose relative
timestamp is measured from the (possibly just set) start timestamp; on
the audio/video path the packet fields are rewritten through the
normalization update and restored in the returned buffer. -/
theorem save_frame_main (upd : UpdFn) (r : janus_recorder) (buf : List Nat)
    (env : SaveEnv) (hb : buf ≠ []) (hf : r.file = true) (hw : r.writable = true)
    (hp : r.paused = false) (hd : r.header = false → env.dumps_ok = true) :
    janus_recorder_save_frame upd r (some buf) env =
      (let started := if r.header = true then r.started else env.now_monotonic
       let pre := if r.header = true then [] else mjr_info_chunk r env.now_real_header
       let rel := janus_frame_rel_ts env.now_monotonic started
       let declared := frame_declared_length r.type buf.length
       if r.type = janus_recorder_medium.data then
         let pl := payload_loop buf env.payload_oracle
         ((if pl.2 then 0 else -6),
          { r with
            header := true,
            started := started,
            fileBytes := r.fileBytes ++ pre ++
              mjr_frame_record r.type rel declared env.now_real_data pl.1 },
          some buf)
       else
         let u := upd (rtp_get_seq buf, rtp_get_ts buf, rtp_get_ssrc buf) r.context
                    (r.type = janus_recorder_medium.video) env.now_monotonic
         let wbuf := rtp_set_seq (rtp_set_ssrc (rtp_set_ts buf u.1.2.1) u.1.2.2) u.1.1
         let pl := payload_loop wbuf env.payload_oracle
         ((if pl.2 then 0 else -6),
          { r with
            header := true,
            started := started,
            context := u.2,
            fileBytes := r.fileBytes ++ pre ++
              mjr_frame_record r.type rel declared env.now_real_data pl.1 },
          some (rtp_set_ts (rtp_set_seq (rtp_set_ssrc wbuf (rtp_get_ssrc buf))
                  (rtp_get_seq buf)) (rtp_get_ts buf)))) := by
  have h1 : ¬(some buf = none ∨ ((some buf).getD []).length < 1) := by
    simp [hb]
  have h5 : ¬(r.header = false ∧ env.dumps_ok = false) := by
    intro h
    rw [hd h.1] at h
    simp at h
  unfold janus_recorder_save_frame
  rw [if_neg h1, if_neg (by simp [hf]), if_neg (by simp [hw]), if_neg (by simp [hp]),
    if_neg h5]
  obtain ⟨dir, filename, file, codec, fmtp, description, created, started, ty,
    writable, hdr, paused, destroyed, opusred_pt, encrypted, extensions, context,
    fileBytes, refcount⟩ := r
  by_cases hh : hdr = true <;>
    by_cases hty : ty = janus_recorder_medium.data <;>
      simp_all

/-- Saving the three RTP header fields, overwriting them with arbitrary
values, and storing the saved values back restores the packet exactly,
provided the packet has a full 12-byte RTP header of genuine bytes. -/
theorem rtp_restore_roundtrip (q t s : Nat) (buf : List Nat)
    (h12 : 12 ≤ buf.length) (hbytes : ∀ x ∈ buf, x < 256) :
    rtp_set_ts (rtp_set_seq (rtp_set_ssrc
        (rtp_set_seq (rtp_set_ssrc (rtp_set_ts buf t) s) q)
      (rtp_get_ssrc buf)) (rtp_get_seq buf)) (rtp_get_ts buf) = buf := by
  rcases buf with _ | ⟨b0, buf⟩; · simp at h12
  rcases buf with _ | ⟨b1, buf⟩; · simp at h12
  rcases buf with _ | ⟨b2, buf⟩; · simp at h12
  rcases buf with _ | ⟨b3, buf⟩; · simp at h12
  rcases buf with _ | ⟨b4, buf⟩; · simp at h12
  rcases buf with _ | ⟨b5, buf⟩; · simp at h12
  rcases buf with _ | ⟨b6, buf⟩; · simp at h12
  rcases buf with _ | ⟨b7, buf⟩; · simp at h12
  rcases buf with _ | ⟨b8, buf⟩; · simp at h12
  rcases buf with _ | ⟨b9, buf⟩; · simp at h12
  rcases buf with _ | ⟨b10, buf⟩; · simp at h12
  rcases buf with _ | ⟨b11, rest⟩; · simp at h12
  simp only [List.mem_cons, forall_eq_or_imp] at hbytes
  obtain ⟨c0, c1, c2, c3, c4, c5, c6, c7, c8, c9, c10, c11, -⟩ := hbytes
  simp only [rtp_get_seq, rtp_get_ts, rtp_get_ssrc, rtp_set_seq, rtp_set_ts,
    rtp_set_ssrc, List.cons.injEq, eq_self_iff_true, true_and, and_true]
  omega

/-! ## Claim theorems -/

/-- C4: the frame-write preconditions are checked in the order: buffer
present and non-empty (result -2, regardless of the other flags), then
writable (result -4, regardless of paused), then paused (result -5); the
three failure codes are pairwise distinct and every precondition failure
leaves the recorder — in particular its file bytes — and the caller's
buffer unchanged. -/
theorem C4_precondition_order :
    (∀ (upd : UpdFn) (r : janus_recorder) (env : SaveEnv),
      janus_recorder_save_frame upd r none env = (-2, r, none)) ∧
    (∀ (upd : UpdFn) (r : janus_recorder) (env : SaveEnv),
      janus_recorder_save_frame upd r (some []) env = (-2, r, some [])) ∧
    (∀ (upd : UpdFn) (r : janus_recorder) (buf : List Nat) (env : SaveEnv),
      buf ≠ [] → r.file = true → r.writable = false →
      janus_recorder_save_frame upd r (some buf) env = (-4, r, some buf)) ∧
    (∀ (upd : UpdFn) (r : janus_recorder) (buf : List Nat) (env : SaveEnv),
      buf ≠ [] → r.file = true → r.writable = true → r.paused = true →
      janus_recorder_save_frame upd r (some buf) env = (-5, r, some buf)) ∧
    ((-2 : Int) ≠ -4 ∧ (-2 : Int) ≠ -5 ∧ (-4 : Int) ≠ -5) := by
  refine ⟨?_, ?_, ?_, ?_, by norm_num⟩
  · intro upd r env
    unfold janus_recorder_save_frame
    rw [if_pos (Or.inl rfl)]
  · intro upd r env
    unfold janus_recorder_save_frame
    rw [if_pos (Or.inr (by simp))]
  · intro upd r buf env hb hf hw
    unfold janus_recorder_save_frame
    rw [if_neg (by simp [hb]), if_neg (by simp [hf]), if_pos hw]
  · intro upd r buf env hb hf hw hp
    unfold janus_recorder_save_frame
    rw [if_neg (by simp [hb]), if_neg (by simp [hf]), if_neg (by simp [hw]), if_pos hp]

/-- Witness for C4 at concrete inputs: a missing buffer, a closed
recorder, and a paused recorder are rejected with -2, -4 and -5. -/
theorem C4_precondition_order_witness :
    janus_recorder_save_frame upd0 recD none envA = (-2, recD, none) ∧
    janus_recorder_save_frame upd0 { recD with writable := false } (some [1]) envA =
      (-4, { recD with writable := false }, some [1]) ∧
    janus_recorder_save_frame upd0 { recD with paused := true } (some [1]) envA =
      (-5, { recD with paused := true }, some [1]) :=
  ⟨C4_precondition_order.1 upd0 recD envA,
   C4_precondition_order.2.2.1 upd0 _ [1] envA (by decide) (by decide) (by decide),
   C4_precondition_order.2.2.2.1 upd0 _ [1] envA (by decide) (by decide) (by decide)
     (by decide)⟩

/-- C6: pause succeeds exactly by flipping `paused` from false to true and
fails otherwise; resume succeeds exactly by flipping it back and fails
when not paused; a successful resume resets the normalization context
(both re-synchronization marks set, monotonic reference re-stamped) for
audio and video kinds and leaves the context untouched for data kind. -/
theorem C6_pause_resume :
    (∀ r : janus_recorder, r.paused = false →
      janus_recorder_pause r = (0, { r with paused := true })) ∧
    (∀ r : janus_recorder, r.paused = true → janus_recorder_pause r = (-2, r)) ∧
    (∀ (now : Int) (r : janus_recorder), r.paused = false →
      janus_recorder_resume now r = (-2, r)) ∧
    (∀ (now : Int) (r : janus_recorder), r.paused = true →
      (r.type = janus_recorder_medium.audio ∨ r.type = janus_recorder_medium.video) →
      janus_recorder_resume now r =
        (0, { r with
              paused := false,
              context := { ts_reset := true, seq_reset := true, last_time := now } })) ∧
    (∀ (now : Int) (r : janus_recorder), r.paused = true →
      r.type = janus_recorder_medium.data →
      janus_recorder_resume now r = (0, { r with paused := false })) := by
  refine ⟨?_, ?_, ?_, ?_, ?_⟩
  · intro r hp; simp [janus_recorder_pause, hp]
  · intro r hp; simp [janus_recorder_pause, hp]
  · intro now r hp; simp [janus_recorder_resume, hp]
  · intro now r hp hav; simp [janus_recorder_resume, hp, hav]
  · intro now r hp hty; simp [janus_recorder_resume, hp, hty]

/-- Witness for C6 at concrete recorders: pausing a running data recorder
succeeds, resuming it succeeds without touching the context, and resuming
a paused audio recorder resets the context. -/
theorem C6_pause_resume_witness :
    janus_recorder_pause recD = (0, { recD with paused := true }) ∧
    janus_recorder_resume 9 { recD with paused := true } =
      (0, { recD with paused := false }) ∧
    janus_recorder_resume 9 { recA with paused := true } =
      (0, { recA with
            paused := false,
            context := { ts_reset := true, seq_reset := true, last_time := 9 } }) :=
  ⟨C6_pause_resume.1 recD (by decide),
   by
     have h := C6_pause_resume.2.2.2.2 9 { recD with paused := true } (by decide)
       (by decide)
     simpa using h,
   by
     have h := C6_pause_resume.2.2.2.1 9 { recA with paused := true } (by decide)
       (Or.inl (by decide))
     simpa using h⟩

/-- C7: once the info header has been written, add-extmap, set-RED and
mark-encrypted fail and mutate nothing, while set-description reports
success and also mutates nothing; add-extmap additionally fails without
mutation on an id outside [1,15] or an absent name; consequently the info
block serialization of the recorder is unaffected by any of these calls
made after the header write. -/
theorem C7_setters_after_header :
    (∀ (r : janus_recorder) (id : Int) (name : Option String), r.header = true →
      janus_recorder_add_extmap r id name = (-1, r)) ∧
    (∀ (r : janus_recorder) (id : Int) (name : Option String),
      id < 1 ∨ 15 < id ∨ name = none →
      janus_recorder_add_extmap r id name = (-1, r)) ∧
    (∀ (r : janus_recorder) (pt : Int), r.header = true →
      janus_recorder_opusred r pt = (-1, r)) ∧
    (∀ r : janus_recorder, r.header = true →
      janus_recorder_encrypted r = (-1, r)) ∧
    (∀ (r : janus_recorder) (d : String), r.header = true →
      janus_recorder_description r (some d) = (0, r)) ∧
    (∀ (r : janus_recorder) (id : Int) (name : Option String) (pt : Int)
        (d : Option String) (u : Int), r.header = true →
      janus_recorder_info_text (janus_recorder_add_extmap r id name).2 u =
        janus_recorder_info_text r u ∧
      janus_recorder_info_text (janus_recorder_opusred r pt).2 u =
        janus_recorder_info_text r u ∧
      janus_recorder_info_text (janus_recorder_encrypted r).2 u =
        janus_recorder_info_text r u ∧
      janus_recorder_info_text (janus_recorder_description r d).2 u =
        janus_recorder_info_text r u) := by
  have hext : ∀ (r : janus_recorder) (id : Int) (name : Option String),
      r.header = true → janus_recorder_add_extmap r id name = (-1, r) := by
    intro r id name hh
    simp [janus_recorder_add_extmap, hh]
  have hred : ∀ (r : janus_recorder) (pt : Int), r.header = true →
      janus_recorder_opusred r pt = (-1, r) := by
    intro r pt hh
    simp [janus_recorder_opusred, hh]
  have henc : ∀ r : janus_recorder, r.header = true →
      janus_recorder_encrypted r = (-1, r) := by
    intro r hh
    simp [janus_recorder_encrypted, hh]
  have hdesc : ∀ (r : janus_recorder) (d : Option String), r.header = true →
      (janus_recorder_description r d).2 = r := by
    intro r d hh
    cases d <;> simp [janus_recorder_description, hh]
  refine ⟨hext, ?_, hred, henc, ?_, ?_⟩
  · intro r id name h
    rcases h with h | h | h <;>
      simp [janus_recorder_add_extmap, h]
  · intro r d hh
    simp [janus_recorder_description, hh]
  · intro r id name pt d u hh
    rw [hext r id name hh, hred r pt hh, henc r hh, hdesc r d hh]
    exact ⟨rfl, rfl, rfl, rfl⟩

/-- Witness for C7 at a concrete recorder with the header written: all
four setters leave the recorder unchanged and the info block identical. -/
theorem C7_setters_after_header_witness :
    janus_recorder_add_extmap recA 3 (some "mid") = (-1, recA) ∧
    janus_recorder_add_extmap recD 0 (some "mid") = (-1, recD) ∧
    janus_recorder_opusred recA 120 = (-1, recA) ∧
    janus_recorder_encrypted recA = (-1, recA) ∧
    janus_recorder_description recA (some "talk") = (0, recA) ∧
    janus_recorder_info_text (janus_recorder_opusred recA 120).2 99 =
      janus_recorder_info_text recA 99 :=
  ⟨C7_setters_after_header.1 recA 3 (some "mid") (by decide),
   C7_setters_after_header.2.1 recD 0 (some "mid") (Or.inl (by decide)),
   C7_setters_after_header.2.2.1 recA 120 (by decide),
   C7_setters_after_header.2.2.2.1 recA (by decide),
   C7_setters_after_header.2.2.2.2.1 recA "talk" (by decide),
   (C7_setters_after_header.2.2.2.2.2 recA 3 (some "mid") 120 (some "talk") 99
     (by decide)).2.1⟩

/-- C9: the frame-write path reports the same numeric failure code, -5,
for a write attempted while paused and for a write aborted because the
info-block serialization failed. -/
theorem C9_paused_code_equals_dump_failure_code (upd upd2 : UpdFn)
    (r r2 : janus_recorder) (buf buf2 : List Nat) (env env2 : SaveEnv)
    (hb : buf ≠ []) (hf : r.file = true) (hw : r.writable = true)
    (hp : r.paused = true)
    (hb2 : buf2 ≠ []) (hf2 : r2.file = true) (hw2 : r2.writable = true)
    (hp2 : r2.paused = false) (hh2 : r2.header = false)
    (hd2 : env2.dumps_ok = false) :
    (janus_recorder_save_frame upd r (some buf) env).1 = -5 ∧
    (janus_recorder_save_frame upd2 r2 (some buf2) env2).1 = -5 ∧
    (janus_recorder_save_frame upd r (some buf) env).1 =
      (janus_recorder_save_frame upd2 r2 (some buf2) env2).1 := by
  have h1 : janus_recorder_save_frame upd r (some buf) env = (-5, r, some buf) := by
    unfold janus_recorder_save_frame
    rw [if_neg (by simp [hb]), if_neg (by simp [hf]), if_neg (by simp [hw]),
      if_pos hp]
  have h2 : janus_recorder_save_frame upd2 r2 (some buf2) env2 =
      (-5, r2, some buf2) := by
    unfold janus_recorder_save_frame
    rw [if_neg (by simp [hb2]), if_neg (by simp [hf2]), if_neg (by simp [hw2]),
      if_neg (by simp [hp2]), if_pos ⟨hh2, hd2⟩]
  rw [h1, h2]
  exact ⟨rfl, rfl, rfl⟩

/-- Witness for C9: a paused data recorder and a fresh data recorder whose
serializer fails both yield -5. -/
theorem C9_paused_code_equals_dump_failure_code_witness :
    (janus_recorder_save_frame upd0 { recD with paused := true } (some [1]) envA).1 =
      -5 ∧
    (janus_recorder_save_frame upd0 recD (some [1])
      { envA with dumps_ok := false }).1 = -5 :=
  ⟨(C9_paused_code_equals_dump_failure_code upd0 upd0 { recD with paused := true }
      recD [1] [1] envA { envA with dumps_ok := false } (by decide) (by decide)
      (by decide) (by decide) (by decide) (by decide) (by decide) (by decide)
      (by decide) (by decide)).1,
   (C9_paused_code_equals_dump_failure_code upd0 upd0 { recD with paused := true }
      recD [1] [1] envA { envA with dumps_ok := false } (by decide) (by decide)
      (by decide) (by decide) (by decide) (by decide) (by decide) (by decide)
      (by decide) (by decide)).2.1⟩

/-- Two case-insensitive matches against the same string force the two
patterns to agree once lowered. -/
theorem strcaseeq_same (c a b : String) (h : strcaseeq c a) (h2 : strcaseeq c b) :
    a.data.map ascii_lower = b.data.map ascii_lower :=
  h.symm.trans h2

/-- C5: construction derives the media kind by matching the codec name
case-insensitively against the three closed codec sets — video
(vp8, vp9, h264, av1, h265), audio (opus, multiopus, g711, pcmu, pcma,
g722, l16-48, l16), data (text, binary) — and an absent or unrecognized
codec name makes construction fail with no object returned and no file
created on disk. -/
theorem C5_codec_dispatch :
    (∀ (tempname : Bool) (tempext : String) (dir : Option (List Char))
        (fmtp : Option String) (filename : Option (List Char)) (env : CreateEnv),
      janus_recorder_create_full tempname tempext dir none fmtp filename env =
        (none, false)) ∧
    (∀ (tempname : Bool) (tempext : String) (dir : Option (List Char)) (c : String)
        (fmtp : Option String) (filename : Option (List Char)) (env : CreateEnv),
      janus_recorder_codec_type c = none →
      janus_recorder_create_full tempname tempext dir (some c) fmtp filename env =
        (none, false)) ∧
    (∀ c : String,
      (strcaseeq c "vp8" ∨ strcaseeq c "vp9" ∨ strcaseeq c "h264" ∨
        strcaseeq c "av1" ∨ strcaseeq c "h265") →
      janus_recorder_codec_type c = some janus_recorder_medium.video) ∧
    (∀ c : String,
      (strcaseeq c "opus" ∨ strcaseeq c "multiopus" ∨ strcaseeq c "g711" ∨
        strcaseeq c "pcmu" ∨ strcaseeq c "pcma" ∨ strcaseeq c "g722" ∨
        strcaseeq c "l16-48" ∨ strcaseeq c "l16") →
      janus_recorder_codec_type c = some janus_recorder_medium.audio) ∧
    (∀ c : String, (strcaseeq c "text" ∨ strcaseeq c "binary") →
      janus_recorder_codec_type c = some janus_recorder_medium.data) ∧
    (∀ c : String,
      ¬(strcaseeq c "vp8" ∨ strcaseeq c "vp9" ∨ strcaseeq c "h264" ∨
        strcaseeq c "av1" ∨ strcaseeq c "h265") →
      ¬(strcaseeq c "opus" ∨ strcaseeq c "multiopus" ∨ strcaseeq c "g711" ∨
        strcaseeq c "pcmu" ∨ strcaseeq c "pcma" ∨ strcaseeq c "g722" ∨
        strcaseeq c "l16-48" ∨ strcaseeq c "l16") →
      ¬(strcaseeq c "text" ∨ strcaseeq c "binary") →
      janus_recorder_codec_type c = none) ∧
    (∀ (tempname : Bool) (tempext : String) (c : String) (ty : janus_recorder_medium)
        (fmtp : Option String) (env : CreateEnv),
      janus_recorder_codec_type c = some ty →
      env.protected_path = false → env.fopen_ok = true → env.magic_write_ok = true →
      (janus_recorder_create_full tempname tempext none (some c) fmtp none env).2 =
        true ∧
      (janus_recorder_create_full tempname tempext none (some c) fmtp none
          env).1.map janus_recorder.type = some ty ∧
      (janus_recorder_create_full tempname tempext none (some c) fmtp none
          env).1.map janus_recorder.fileBytes = some (str_bytes "MJR00002") ∧
      (janus_recorder_create_full tempname tempext none (some c) fmtp none
          env).1.map janus_recorder.writable = some true ∧
      (janus_recorder_create_full tempname tempext none (some c) fmtp none
          env).1.map janus_recorder.header = some false) := by
  refine ⟨?_, ?_, ?_, ?_, ?_, ?_, ?_⟩
  · intro tempname tempext dir fmtp filename env
    rfl
  · intro tempname tempext dir c fmtp filename env h
    simp [janus_recorder_create_full, h]
  · intro c h
    unfold janus_recorder_codec_type
    rw [if_pos h]
  · intro c h
    unfold janus_recorder_codec_type
    rw [if_neg, if_pos h]
    intro hvid
    rcases hvid with hv | hv | hv | hv | hv <;>
      rcases h with ha | ha | ha | ha | ha | ha | ha | ha <;>
        exact absurd (strcaseeq_same c _ _ ha hv) (by decide)
  · intro c h
    unfold janus_recorder_codec_type
    rw [if_neg, if_neg, if_pos h]
    · intro haud
      rcases haud with ha | ha | ha | ha | ha | ha | ha | ha <;>
        rcases h with hd | hd <;>
          exact absurd (strcaseeq_same c _ _ hd ha) (by decide)
    · intro hvid
      rcases hvid with hv | hv | hv | hv | hv <;>
        rcases h with hd | hd <;>
          exact absurd (strcaseeq_same c _ _ hd hv) (by decide)
  · intro c hv ha hd
    unfold janus_recorder_codec_type
    rw [if_neg hv, if_neg ha, if_neg hd]
  · intro tempname tempext c ty fmtp env hc hprot hopen hmagic
    simp [janus_recorder_create_full, hc, hprot, hopen, hmagic]

/-- Witness for C5 at concrete codec names: a mixed-case supported name
yields the documented kind with the magic written, and an unsupported
name fails with no file created. -/
theorem C5_codec_dispatch_witness :
    janus_recorder_codec_type "OpUs" = some janus_recorder_medium.audio ∧
    janus_recorder_codec_type "H264" = some janus_recorder_medium.video ∧
    janus_recorder_codec_type "Binary" = some janus_recorder_medium.data ∧
    janus_recorder_codec_type "mp3" = none ∧
    (janus_recorder_create_full false "tmp" none (some "OpUs") none none
        { dir_missing := false, stat_error := false, mkdir_ok := true,
          is_dir := true, protected_path := false, fopen_ok := true,
          magic_write_ok := true, random32 := 4, created_time := 7 }).1.map
      janus_recorder.type = some janus_recorder_medium.audio ∧
    janus_recorder_create_full false "tmp" none (some "mp3") none none
      { dir_missing := false, stat_error := false, mkdir_ok := true,
        is_dir := true, protected_path := false, fopen_ok := true,
        magic_write_ok := true, random32 := 4, created_time := 7 } =
      (none, false) :=
  ⟨C5_codec_dispatch.2.2.2.1 "OpUs" (Or.inl (by decide)),
   C5_codec_dispatch.2.2.1 "H264" (Or.inr (Or.inr (Or.inl (by decide)))),
   C5_codec_dispatch.2.2.2.2.1 "Binary" (Or.inr (by decide)),
   C5_codec_dispatch.2.2.2.2.2.1 "mp3" (by decide) (by decide) (by decide),
   (C5_codec_dispatch.2.2.2.2.2.2 false "tmp" "OpUs" janus_recorder_medium.audio
     none _ (C5_codec_dispatch.2.2.2.1 "OpUs" (Or.inl (by decide))) rfl rfl
     rfl).2.1,
   C5_codec_dispatch.2.1 false "tmp" none "mp3" none none _
     (C5_codec_dispatch.2.2.2.2.2.1 "mp3" (by decide) (by decide) (by decide))⟩

/-- C3: for audio/video kinds, the frame-write operation returns the
caller's buffer byte-identical to what was passed in on every exit path —
the reject paths never touch it, and on the write path the sequence
number, timestamp and SSRC rewritten in place through the normalization
update are restored from the saved originals both when the payload loop
aborts without progress and when it completes. -/
theorem C3_buffer_restored (upd : UpdFn) (r : janus_recorder) (buf : List Nat)
    (env : SaveEnv) (hty : r.type ≠ janus_recorder_medium.data)
    (h12 : 12 ≤ buf.length) (hbytes : ∀ x ∈ buf, x < 256) :
    (janus_recorder_save_frame upd r (some buf) env).2.2 = some buf := by
  have hb : buf ≠ [] := by
    intro h
    rw [h] at h12
    simp at h12
  have h1 : ¬((some buf : Option (List Nat)) = none ∨
      ((some buf : Option (List Nat)).getD []).length < 1) := by simp [hb]
  by_cases h2 : r.file = false
  · unfold janus_recorder_save_frame
    rw [if_neg h1, if_pos h2]
  by_cases h3 : r.writable = false
  · unfold janus_recorder_save_frame
    rw [if_neg h1, if_neg h2, if_pos h3]
  by_cases h4 : r.paused = true
  · unfold janus_recorder_save_frame
    rw [if_neg h1, if_neg h2, if_neg h3, if_pos h4]
  by_cases h5 : r.header = false ∧ env.dumps_ok = false
  · unfold janus_recorder_save_frame
    rw [if_neg h1, if_neg h2, if_neg h3, if_neg h4, if_pos h5]
  · rw [save_frame_main upd r buf env hb (by simpa using h2) (by simpa using h3)
      (by simpa using h4) (by intro hh; by_contra hc; exact h5 ⟨hh, by simpa using hc⟩)]
    simp only [if_neg hty]
    rw [rtp_restore_roundtrip _ _ _ buf h12 hbytes]

/-- Witness for C3: a concrete 12-byte RTP packet written through an
audio recorder comes back unchanged, both on a successful write and on a
write whose payload loop makes no progress. -/
theorem C3_buffer_restored_witness :
    (janus_recorder_save_frame upd0 recA (some rtpBuf0) envB).2.2 = some rtpBuf0 ∧
    (janus_recorder_save_frame upd0 recA (some rtpBuf0) envA).2.2 = some rtpBuf0 :=
  ⟨C3_buffer_restored upd0 recA rtpBuf0 envB (by decide) (by decide)
     (by decide),
   C3_buffer_restored upd0 recA rtpBuf0 envA (by decide) (by decide)
     (by decide)⟩

/-- After any close call the recorder is no longer writable. -/
theorem close_writable_false (tempname : Bool) (tempext : String)
    (r : janus_recorder) :
    (janus_recorder_close tempname tempext r).2.1.writable = false := by
  unfold janus_recorder_close
  by_cases h : r.writable = false
  · rw [if_pos h]; exact h
  · rw [if_neg h]
    by_cases ht : tempname = true <;> simp [ht]

/-- Closing an already closed recorder any number of times changes
nothing and performs no rename. -/
theorem close_loop_stopped (tempname : Bool) (tempext : String)
    (r : janus_recorder) (h : r.writable = false) :
    ∀ n, close_loop tempname tempext r n = (r, 0) := by
  intro n
  induction n with
  | zero => rfl
  | succ n ih =>
    have hc : janus_recorder_close tempname tempext r = (-1, r, false) := by
      unfold janus_recorder_close
      rw [if_pos h]
    simp [close_loop, hc, ih]

/-- C8: only the first close call — the one that flips `writable` from
true to false — performs the close logic; with temporary names configured
it renames the file by truncating the temporary extension, so the stored
filename ends in `.mjr`; any later close returns failure and changes
nothing, a sequence of closes behaves like a single one and renames at
most once; destroy flips the destroyed flag and decrements the reference
count only on its first call. -/
theorem C8_close_destroy_idempotent :
    (∀ (r : janus_recorder) (stem : List Char) (tempext : String),
      r.writable = true → r.filename = stem ++ (".mjr." ++ tempext).data →
      janus_recorder_close true tempext r =
        (0, { r with writable := false, filename := stem ++ ".mjr".data }, true) ∧
      ".mjr".data <:+ stem ++ ".mjr".data) ∧
    (∀ (tempname : Bool) (tempext : String) (r : janus_recorder),
      r.writable = false →
      janus_recorder_close tempname tempext r = (-1, r, false)) ∧
    (∀ (tempname : Bool) (tempext : String) (r : janus_recorder) (n : Nat),
      close_loop tempname tempext r (n + 1) =
        ((janus_recorder_close tempname tempext r).2.1,
         if (janus_recorder_close tempname tempext r).2.2 then 1 else 0)) ∧
    (∀ (tempname : Bool) (tempext : String) (r : janus_recorder) (n : Nat),
      (close_loop tempname tempext r n).2 ≤ 1) ∧
    (∀ r : janus_recorder, r.destroyed = false →
      janus_recorder_destroy r =
        { r with destroyed := true, refcount := r.refcount - 1 }) ∧
    (∀ r : janus_recorder, r.destroyed = true → janus_recorder_destroy r = r) ∧
    (∀ r : janus_recorder,
      janus_recorder_destroy (janus_recorder_destroy r) =
        janus_recorder_destroy r) := by
  have hrename : ∀ (r : janus_recorder) (stem : List Char) (tempext : String),
      r.writable = true → r.filename = stem ++ (".mjr." ++ tempext).data →
      janus_recorder_close true tempext r =
        (0, { r with writable := false, filename := stem ++ ".mjr".data }, true) := by
    intro r stem tempext hw hname
    unfold janus_recorder_close
    rw [if_neg (by simp [hw]), if_pos rfl]
    have hdata : (".mjr." ++ tempext).data = ".mjr.".data ++ tempext.data := rfl
    have hlen : (stem ++ (".mjr." ++ tempext).data).length - tempext.length - 1 =
        stem.length + 4 := by
      rw [hdata]
      simp [List.length_append]
      have : tempext.length = tempext.data.length := rfl
      omega
    have htake : (stem ++ (".mjr." ++ tempext).data).take (stem.length + 4) =
        stem ++ ".mjr".data := by
      rw [hdata, List.take_append]
      rw [List.take_append_of_le_length (by simp)]
      rfl
    simp only [hname, hlen, htake]
  refine ⟨?_, ?_, ?_, ?_, ?_, ?_, ?_⟩
  · intro r stem tempext hw hname
    exact ⟨hrename r stem tempext hw hname, ⟨stem, rfl⟩⟩
  · intro tempname tempext r h
    unfold janus_recorder_close
    rw [if_pos h]
  · intro tempname tempext r n
    have hstop := close_loop_stopped tempname tempext
      (janus_recorder_close tempname tempext r).2.1
      (close_writable_false tempname tempext r) n
    simp [close_loop, hstop]
  · intro tempname tempext r n
    cases n with
    | zero => simp [close_loop]
    | succ n =>
      have hstop := close_loop_stopped tempname tempext
        (janus_recorder_close tempname tempext r).2.1
        (close_writable_false tempname tempext r) n
      simp only [close_loop, hstop]
      by_cases h : (janus_recorder_close tempname tempext r).2.2 = true <;> simp [h]
  · intro r h
    simp [janus_recorder_destroy, h]
  · intro r h
    simp [janus_recorder_destroy, h]
  · intro r
    unfold janus_recorder_destroy
    by_cases h : r.destroyed = false
    · rw [if_pos h]
      simp
    · rw [if_neg h, if_neg h]

/-- Witness for C8: closing a writable recorder with a temporary name
renames it to a `.mjr` name once; the second close fails and changes
nothing; destroying twice equals destroying once. -/
theorem C8_close_destroy_idempotent_witness :
    janus_recorder_close true "tmp" { recD with filename := "s1.mjr.tmp".data } =
      (0, { recD with
            filename := "s1.mjr".data,
            writable := false }, true) ∧
    janus_recorder_close true "tmp" { recD with writable := false } =
      (-1, { recD with writable := false }, false) ∧
    close_loop true "tmp" { recD with filename := "s1.mjr.tmp".data } 5 =
      ({ recD with filename := "s1.mjr".data, writable := false }, 1) ∧
    janus_recorder_destroy recD =
      { recD with destroyed := true, refcount := 0 } ∧
    janus_recorder_destroy (janus_recorder_destroy recD) =
      janus_recorder_destroy recD := by
  have h1 := (C8_close_destroy_idempotent.1
    { recD with filename := "s1.mjr.tmp".data } "s1".data "tmp"
    (by decide) (by decide)).1
  refine ⟨by simpa using h1, ?_, ?_, ?_, ?_⟩
  · exact C8_close_destroy_idempotent.2.1 true "tmp" _ (by decide)
  · have h2 := C8_close_destroy_idempotent.2.2.1 true "tmp"
      { recD with filename := "s1.mjr.tmp".data } 4
    rw [h2, h1]
    simp
  · have h3 := C8_close_destroy_idempotent.2.2.2.2.1 recD (by decide)
    simpa using h3
  · exact C8_close_destroy_idempotent.2.2.2.2.2.2 recD

/-- The header flag never goes back from written to unwritten. -/
theorem save_frame_header_mono (upd : UpdFn) (r : janus_recorder)
    (b : Option (List Nat)) (env : SaveEnv) (hh : r.header = true) :
    (janus_recorder_save_frame upd r b env).2.1.header = true := by
  rcases save_frame_cases upd r b env with h | h
  · rw [h, hh]
  · exact h.1

/-- A call that leaves the header flag unwritten left the whole recorder
unchanged. -/
theorem save_frame_no_transition (upd : UpdFn) (r : janus_recorder)
    (b : Option (List Nat)) (env : SaveEnv)
    (h : (janus_recorder_save_frame upd r b env).2.1.header = false) :
    (janus_recorder_save_frame upd r b env).2.1 = r := by
  rcases save_frame_cases upd r b env with hc | hc
  · exact hc
  · rw [hc.1] at h
    cases h

/-- Once the header is written, no later frame write of a trace flips the
flag again. -/
theorem header_transitions_zero (upd : UpdFn) :
    ∀ (inputs : List SaveInput) (r : janus_recorder), r.header = true →
      header_transitions upd r inputs = 0 := by
  intro inputs
  induction inputs with
  | nil => intro r _; rfl
  | cons i is ih =>
    intro r hh
    have hmono := save_frame_header_mono upd r i.buffer i.env hh
    simp [header_transitions, hh, ih _ hmono]

/-- Along any trace of frame writes the header flag flips at most once. -/
theorem header_transitions_le_one_aux (upd : UpdFn) :
    ∀ (inputs : List SaveInput) (r : janus_recorder),
      header_transitions upd r inputs ≤ 1 := by
  intro inputs
  induction inputs with
  | nil => intro r; simp [header_transitions]
  | cons i is ih =>
    intro r
    by_cases ht : r.header = false ∧
        (janus_recorder_save_frame upd r i.buffer i.env).2.1.header = true
    · simp only [header_transitions, ht, if_pos]
      rw [header_transitions_zero upd is _ ht.2]
      simp
    · simp only [header_transitions, if_neg ht]
      simpa using ih _

/-- Counterexample to C1 as stated: on a fresh data recorder, a first
frame write whose payload `fwrite` makes no progress fails with -6 — it
is not a successful frame write — yet it emits the info header block (and
a partial frame record) and sets the start timestamp; the next write, the
first successful one, emits no info block. So the info header is written
by a failed frame write, not by the first successful one, and the
successful frame's bytes are not immediately preceded by the header. -/
theorem C1_counterexample :
    (janus_recorder_save_frame upd0 recD (some [1, 2, 3]) envA).1 = -6 ∧
    (janus_recorder_save_frame upd0 recD (some [1, 2, 3]) envA).2.1.header = true ∧
    (janus_recorder_save_frame upd0 recD (some [1, 2, 3]) envA).2.1.fileBytes =
      recD.fileBytes ++ mjr_info_chunk recD 11 ++
        mjr_frame_record janus_recorder_medium.data 0 11 12 [] ∧
    (janus_recorder_save_frame upd0
        (janus_recorder_save_frame upd0 recD (some [1, 2, 3]) envA).2.1
        (some [1, 2, 3]) envB).1 = 0 ∧
    (janus_recorder_save_frame upd0
        (janus_recorder_save_frame upd0 recD (some [1, 2, 3]) envA).2.1
        (some [1, 2, 3]) envB).2.1.fileBytes =
      (janus_recorder_save_frame upd0 recD (some [1, 2, 3]) envA).2.1.fileBytes ++
        mjr_frame_record janus_recorder_medium.data 5000 11 14 [1, 2, 3] := by
  refine ⟨rfl, rfl, by decide, rfl, by decide⟩

/-- C1 (amended): the info header block is written exactly once, lazily,
by the first frame write that passes the precondition checks and whose
info serialization succeeds — whether or not that frame's own payload
write then succeeds — and within that call it precedes the frame's own
record; along any trace the header flag flips at most once and never
flips back; the start timestamp is set at that same moment (the call's
monotonic reading) and is the origin of every later frame's relative
timestamp; a call that does not emit the header changes nothing at all
or appends only a frame record measured from the existing start
timestamp. -/
theorem C1_header_once :
    (∀ (upd : UpdFn) (r : janus_recorder) (inputs : List SaveInput),
      header_transitions upd r inputs ≤ 1) ∧
    (∀ (upd : UpdFn) (r : janus_recorder) (inputs : List SaveInput),
      r.header = true → header_transitions upd r inputs = 0) ∧
    (∀ (upd : UpdFn) (r : janus_recorder) (buf : List Nat) (env : SaveEnv),
      buf ≠ [] → r.file = true → r.writable = true → r.paused = false →
      r.header = false → env.dumps_ok = true →
      ∃ w, (janus_recorder_save_frame upd r (some buf) env).2.1.fileBytes =
          r.fileBytes ++ mjr_info_chunk r env.now_real_header ++
            mjr_frame_record r.type
              (janus_frame_rel_ts env.now_monotonic env.now_monotonic)
              (frame_declared_length r.type buf.length) env.now_real_data w ∧
        (janus_recorder_save_frame upd r (some buf) env).2.1.started =
          env.now_monotonic ∧
        (janus_recorder_save_frame upd r (some buf) env).2.1.header = true) ∧
    (∀ (upd : UpdFn) (r : janus_recorder) (buf : List Nat) (env : SaveEnv),
      buf ≠ [] → r.file = true → r.writable = true → r.paused = false →
      r.header = true →
      ∃ w, (janus_recorder_save_frame upd r (some buf) env).2.1.fileBytes =
          r.fileBytes ++
            mjr_frame_record r.type
              (janus_frame_rel_ts env.now_monotonic r.started)
              (frame_declared_length r.type buf.length) env.now_real_data w ∧
        (janus_recorder_save_frame upd r (some buf) env).2.1.started =
          r.started) ∧
    (∀ (upd : UpdFn) (r : janus_recorder) (b : Option (List Nat)) (env : SaveEnv),
      (janus_recorder_save_frame upd r b env).2.1.header = false →
      (janus_recorder_save_frame upd r b env).2.1 = r) := by
  refine ⟨fun upd r inputs => header_transitions_le_one_aux upd inputs r,
    fun upd r inputs hh => header_transitions_zero upd inputs r hh, ?_, ?_,
    fun upd r b env h => save_frame_no_transition upd r b env h⟩
  · intro upd r buf env hb hf hw hp hh hd
    rw [save_frame_main upd r buf env hb hf hw hp (fun _ => hd)]
    by_cases hty : r.type = janus_recorder_medium.data
    · simp only [hty, hh, if_true, if_false, Bool.false_eq_true, ite_false, ite_true,
        List.append_nil]
      exact ⟨_, rfl, trivial, trivial⟩
    · simp only [hty, hh, if_true, if_false, Bool.false_eq_true, ite_false, ite_true,
        List.append_nil]
      exact ⟨_, rfl, trivial, trivial⟩
  · intro upd r buf env hb hf hw hp hh
    rw [save_frame_main upd r buf env hb hf hw hp
      (fun hfalse => absurd hh (by simp [hfalse]))]
    by_cases hty : r.type = janus_recorder_medium.data
    · simp only [hty, hh, if_true, if_false, ite_false, ite_true, List.append_nil]
      exact ⟨_, rfl, trivial⟩
    · simp only [hty, hh, if_true, if_false, ite_false, ite_true, List.append_nil]
      exact ⟨_, rfl, trivial⟩

/-- Witness for C1 at concrete inputs: a two-call trace flips the header
at most once, a fresh recorder's first passing write emits the info chunk
before its frame record and anchors the start timestamp, and a recorder
with the header already written appends only a frame record measured from
the existing start timestamp. -/
theorem C1_header_once_witness :
    header_transitions upd0 recD
      [{ buffer := some [1, 2, 3], env := envA },
       { buffer := some [1, 2, 3], env := envB }] ≤ 1 ∧
    (∃ w, (janus_recorder_save_frame upd0 recD (some [1, 2, 3]) envB).2.1.fileBytes =
        recD.fileBytes ++ mjr_info_chunk recD envB.now_real_header ++
          mjr_frame_record recD.type
            (janus_frame_rel_ts envB.now_monotonic envB.now_monotonic)
            (frame_declared_length recD.type [1, 2, 3].length) envB.now_real_data w ∧
      (janus_recorder_save_frame upd0 recD (some [1, 2, 3]) envB).2.1.started =
        envB.now_monotonic ∧
      (janus_recorder_save_frame upd0 recD (some [1, 2, 3]) envB).2.1.header =
        true) ∧
    (∃ w, (janus_recorder_save_frame upd0 recA (some rtpBuf0) envB).2.1.fileBytes =
        recA.fileBytes ++
          mjr_frame_record recA.type
            (janus_frame_rel_ts envB.now_monotonic recA.started)
            (frame_declared_length recA.type rtpBuf0.length) envB.now_real_data w ∧
      (janus_recorder_save_frame upd0 recA (some rtpBuf0) envB).2.1.started =
        recA.started) :=
  ⟨C1_header_once.1 upd0 recD _,
   C1_header_once.2.2.1 upd0 recD [1, 2, 3] envB (by decide) rfl rfl rfl rfl rfl,
   C1_header_once.2.2.2.1 upd0 recA rtpBuf0 envB (by decide) rfl rfl rfl rfl⟩

/-- Counterexample to C10 as stated: when a fresh data recorder's first
frame write fails in the payload loop (result -6), the start timestamp is
already set; the next write — the first successful one — carries a
relative timestamp of 5000 milliseconds, not zero. -/
theorem C10_counterexample :
    (janus_recorder_save_frame upd0 recD (some [1, 2, 3]) envA).1 ≠ 0 ∧
    (janus_recorder_save_frame upd0
        (janus_recorder_save_frame upd0 recD (some [1, 2, 3]) envA).2.1
        (some [1, 2, 3]) envB).1 = 0 ∧
    (janus_recorder_save_frame upd0
        (janus_recorder_save_frame upd0 recD (some [1, 2, 3]) envA).2.1
        (some [1, 2, 3]) envB).2.1.fileBytes =
      (janus_recorder_save_frame upd0 recD (some [1, 2, 3]) envA).2.1.fileBytes ++
        mjr_frame_record janus_recorder_medium.data
          (janus_frame_rel_ts envB.now_monotonic 1000000) 11 14 [1, 2, 3] ∧
    janus_frame_rel_ts envB.now_monotonic 1000000 = 5000 ∧ (5000 : Nat) ≠ 0 := by
  refine ⟨by decide, rfl, by decide, by decide, by decide⟩

/-- C10 (amended): the frame that triggers the header emission — the
first write that passes the precondition checks and serializes the info
block — carries a relative timestamp field of exactly zero, because the
start timestamp is recorded from the same monotonic reading used to
compute that frame's elapsed time. -/
theorem C10_emitting_frame_rel_ts_zero (upd : UpdFn) (r : janus_recorder)
    (buf : List Nat) (env : SaveEnv) (hb : buf ≠ []) (hf : r.file = true)
    (hw : r.writable = true) (hp : r.paused = false) (hh : r.header = false)
    (hd : env.dumps_ok = true) :
    (janus_recorder_save_frame upd r (some buf) env).2.1.started =
      env.now_monotonic ∧
    ∃ w, (janus_recorder_save_frame upd r (some buf) env).2.1.fileBytes =
        r.fileBytes ++ mjr_info_chunk r env.now_real_header ++
          mjr_frame_record r.type 0
            (frame_declared_length r.type buf.length) env.now_real_data w := by
  have hzero : janus_frame_rel_ts env.now_monotonic env.now_monotonic = 0 := by
    simp [janus_frame_rel_ts]
  rw [save_frame_main upd r buf env hb hf hw hp (fun _ => hd)]
  by_cases hty : r.type = janus_recorder_medium.data
  · simp only [hty, hh, if_true, if_false, Bool.false_eq_true, ite_false, ite_true,
      hzero]
    exact ⟨trivial, _, rfl⟩
  · simp only [hty, hh, if_true, if_false, Bool.false_eq_true, ite_false, ite_true,
      hzero]
    exact ⟨trivial, _, rfl⟩

/-- Witness for C10 (amended): the header-emitting write of a fresh data
recorder carries relative timestamp zero. -/
theorem C10_emitting_frame_rel_ts_zero_witness :
    (janus_recorder_save_frame upd0 recD (some [1, 2, 3]) envB).2.1.started =
      envB.now_monotonic ∧
    ∃ w, (janus_recorder_save_frame upd0 recD (some [1, 2, 3]) envB).2.1.fileBytes =
        recD.fileBytes ++ mjr_info_chunk recD envB.now_real_header ++
          mjr_frame_record recD.type 0
            (frame_declared_length recD.type [1, 2, 3].length) envB.now_real_data w :=
  C10_emitting_frame_rel_ts_zero upd0 recD [1, 2, 3] envB (by decide) rfl rfl rfl
    rfl rfl

/-- Storing a sequence number never changes the packet length. -/
theorem rtp_set_seq_length (l : List Nat) (v : Nat) :
    (rtp_set_seq l v).length = l.length := by
  unfold rtp_set_seq
  split <;> simp

/-- Storing a timestamp never changes the packet length. -/
theorem rtp_set_ts_length (l : List Nat) (v : Nat) :
    (rtp_set_ts l v).length = l.length := by
  unfold rtp_set_ts
  split <;> simp

/-- Storing an SSRC never changes the packet length. -/
theorem rtp_set_ssrc_length (l : List Nat) (v : Nat) :
    (rtp_set_ssrc l v).length = l.length := by
  unfold rtp_set_ssrc
  split <;> simp

/-- C2 (amended): every successfully written frame record is the 4-byte
marker, a 4-byte big-endian relative timestamp equal to the elapsed
milliseconds since the start timestamp reduced modulo 2^32 (and clamped
to zero when now is not after the start timestamp), a 2-byte big-endian
length field equal to the buffer length modulo 2^16 for audio/video and
to the buffer length plus 8 modulo 2^16 for data, and for data kind an
8-byte big-endian wall-clock instant immediately before the payload
bytes; the payload written for audio/video has the buffer's exact
length. -/
theorem C2_frame_layout :
    (∀ now started : Int, now ≤ started → janus_frame_rel_ts now started = 0) ∧
    (∀ now started : Int, started < now →
      janus_frame_rel_ts now started =
        ((now - started) / 1000).toNat % 4294967296) ∧
    (∀ (upd : UpdFn) (r : janus_recorder) (buf : List Nat) (env : SaveEnv),
      buf ≠ [] → r.file = true → r.writable = true → r.paused = false →
      r.header = true → r.type = janus_recorder_medium.data →
      (janus_recorder_save_frame upd r (some buf) env).1 = 0 →
      (janus_recorder_save_frame upd r (some buf) env).2.1.fileBytes =
        r.fileBytes ++ mjr_frame_record janus_recorder_medium.data
          (janus_frame_rel_ts env.now_monotonic r.started)
          ((buf.length + 8) % 65536) env.now_real_data buf) ∧
    (∀ (upd : UpdFn) (r : janus_recorder) (buf : List Nat) (env : SaveEnv),
      buf ≠ [] → r.file = true → r.writable = true → r.paused = false →
      r.header = true → r.type ≠ janus_recorder_medium.data →
      (janus_recorder_save_frame upd r (some buf) env).1 = 0 →
      ∃ w, (janus_recorder_save_frame upd r (some buf) env).2.1.fileBytes =
          r.fileBytes ++ mjr_frame_record r.type
            (janus_frame_rel_ts env.now_monotonic r.started)
            (buf.length % 65536) env.now_real_data w ∧
        w.length = buf.length) := by
  refine ⟨?_, ?_, ?_, ?_⟩
  · intro now started h
    have : ¬started < now := not_lt.mpr h
    simp [janus_frame_rel_ts, this]
  · intro now started h
    simp [janus_frame_rel_ts, h]
  · intro upd r buf env hb hf hw hp hh hty h0
    have hmain := save_frame_main upd r buf env hb hf hw hp
      (fun hfalse => absurd hh (by simp [hfalse]))
    rw [hmain] at h0 ⊢
    simp only [hty, hh, if_true, if_false, ite_true, ite_false,
      List.append_nil] at h0 ⊢
    by_cases hpl : (payload_loop buf env.payload_oracle).2 = true
    · rw [payload_loop_ok env.payload_oracle buf hpl]
      have hdecl : frame_declared_length janus_recorder_medium.data buf.length =
          (buf.length + 8) % 65536 := rfl
      rw [hdecl]
    · simp [hpl] at h0
  · intro upd r buf env hb hf hw hp hh hty h0
    have hmain := save_frame_main upd r buf env hb hf hw hp
      (fun hfalse => absurd hh (by simp [hfalse]))
    rw [hmain] at h0 ⊢
    simp only [hty, hh, if_true, if_false, ite_true, ite_false, if_neg,
      List.append_nil] at h0 ⊢
    by_cases hpl : (payload_loop (rtp_set_seq (rtp_set_ssrc (rtp_set_ts buf
        (upd (rtp_get_seq buf, rtp_get_ts buf, rtp_get_ssrc buf) r.context
          (decide (r.type = janus_recorder_medium.video)) env.now_monotonic).1.2.1)
        (upd (rtp_get_seq buf, rtp_get_ts buf, rtp_get_ssrc buf) r.context
          (decide (r.type = janus_recorder_medium.video)) env.now_monotonic).1.2.2)
        (upd (rtp_get_seq buf, rtp_get_ts buf, rtp_get_ssrc buf) r.context
          (decide (r.type = janus_recorder_medium.video)) env.now_monotonic).1.1)
        env.payload_oracle).2 = true
    · have hdecl : frame_declared_length r.type buf.length =
          buf.length % 65536 := by
        unfold frame_declared_length
        rw [if_neg hty]
      rw [hdecl]
      exact ⟨_, rfl, by
        rw [payload_loop_ok _ _ hpl, rtp_set_seq_length, rtp_set_ssrc_length,
          rtp_set_ts_length]⟩
    · simp [hpl] at h0

/-- Counterexample to C2 as stated: a successful data-kind write of a
65528-byte payload after 2^32 milliseconds declares a length field of 0 —
not 65528 + 8 — and a relative timestamp field of 0 — not 2^32 — because
both fields pass through the `uint16_t` and `uint32_t` casts of the
source. -/
theorem C2_counterexample :
    (janus_recorder_save_frame upd0 recD2 (some (List.replicate 65528 1)) envC).1 =
      0 ∧
    (janus_recorder_save_frame upd0 recD2
        (some (List.replicate 65528 1)) envC).2.1.fileBytes =
      recD2.fileBytes ++ mjr_frame_record janus_recorder_medium.data 0 0 56
        (List.replicate 65528 1) ∧
    (0 : Nat) ≠ 65528 + 8 ∧
    ((envC.now_monotonic - recD2.started) / 1000 : Int) = 4294967296 ∧
    (0 : Nat) ≠ 4294967296 := by
  have hb : (List.replicate 65528 1 : List Nat) ≠ [] := by
    intro h
    have hlen := congrArg List.length h
    rw [List.length_replicate] at hlen
    simp at hlen
  have hpl : payload_loop (List.replicate 65528 1) [65528] =
      (List.replicate 65528 1, true) := by
    have h := payload_loop_exact (List.replicate 65528 1) hb
    rw [List.length_replicate] at h
    exact h
  have hrel : janus_frame_rel_ts 4294967296000 0 = 0 := by decide
  have hdecl : frame_declared_length janus_recorder_medium.data 65528 = 0 := by
    decide
  have hmain := save_frame_main upd0 recD2 (List.replicate 65528 1) envC hb rfl rfl
    rfl (fun _ => rfl)
  refine ⟨?_, ?_, by decide, by decide, by decide⟩
  · rw [hmain]
    simp only [show recD2.header = true from rfl,
      show recD2.type = janus_recorder_medium.data from rfl,
      show envC.payload_oracle = [65528] from rfl,
      eq_self_iff_true, if_true, ite_true, hpl]
  · rw [hmain]
    simp only [show recD2.header = true from rfl,
      show recD2.type = janus_recorder_medium.data from rfl,
      show recD2.started = (0 : Int) from rfl,
      show envC.payload_oracle = [65528] from rfl,
      show envC.now_monotonic = (4294967296000 : Int) from rfl,
      show envC.now_real_data = (56 : Int) from rfl,
      eq_self_iff_true, if_true, ite_true, hpl, List.length_replicate, hrel, hdecl,
      List.nil_append, List.append_nil]

/-- Witness for C2 (amended) at a concrete input: a data-kind recorder
successfully writing a 10-byte payload emits a frame whose declared
length field is (10 + 8) mod 2^16 = 18 and whose body is the 8-byte
wall-clock instant followed by the original 10 bytes. -/
theorem C2_frame_layout_witness :
    (janus_recorder_save_frame upd0 recD2
        (some [0, 1, 2, 3, 4, 5, 6, 7, 8, 9]) envB).1 = 0 ∧
    (janus_recorder_save_frame upd0 recD2
        (some [0, 1, 2, 3, 4, 5, 6, 7, 8, 9]) envB).2.1.fileBytes =
      recD2.fileBytes ++ mjr_frame_record janus_recorder_medium.data
        (janus_frame_rel_ts envB.now_monotonic recD2.started)
        (([0, 1, 2, 3, 4, 5, 6, 7, 8, 9].length + 8) % 65536) envB.now_real_data
        [0, 1, 2, 3, 4, 5, 6, 7, 8, 9] ∧
    ([0, 1, 2, 3, 4, 5, 6, 7, 8, 9].length + 8) % 65536 = 18 :=
  ⟨by decide,
   C2_frame_layout.2.2.1 upd0 recD2 [0, 1, 2, 3, 4, 5, 6, 7, 8, 9] envB
     (by decide) rfl rfl rfl rfl rfl (by decide),
   by decide⟩
